import Mathlib

/-!
A shallow embedding of `src/web/static/js/color-utils.js` and a verification
of the specified behaviour of its six functions: `hexToRgb`, `getLuminance`,
`getContrastColor`, `isValidHex`, `createColoredHex` and
`createColoredHexHTML`.

Strings are modelled by Lean `String`; regular-expression matching against the
two anchored patterns of the source is modelled by explicit inspection of the
character list; a DOM element is modelled by a record of the fields the code
touches (tag name, class, the three inline style properties, text content);
JavaScript template-literal interpolation of an `undefined` lookup is modelled
explicitly (it produces the text "undefined"); JavaScript's floating-point
arithmetic in `getLuminance` is idealised over the real numbers, and the exact
rational brightness of `getContrastColor` over `ℚ`.
-/

namespace ColorUtils

/-- One character of the regex class `[A-Fa-f0-9]` (equally `[a-f\d]` under the
`i` flag): a hexadecimal digit, upper or lower case. Character order is
code-point order. -/
def isHexDigit (c : Char) : Bool :=
  ('0' ≤ c && c ≤ '9') || ('a' ≤ c && c ≤ 'f') || ('A' ≤ c && c ≤ 'F')

/-- The numeric value `parseInt` assigns to one hexadecimal digit. -/
def hexVal (c : Char) : Nat :=
  if '0' ≤ c && c ≤ '9' then c.toNat - '0'.toNat
  else if 'a' ≤ c && c ≤ 'f' then c.toNat - 'a'.toNat + 10
  else c.toNat - 'A'.toNat + 10

/-- `isValidHex` (source lines 33–35): test of the anchored regex
`/^#([A-Fa-f0-9]{6}|[A-Fa-f0-9]{3})$/` — a mandatory `#`, then exactly six or
exactly three hexadecimal digits. -/
def isValidHex (hex : String) : Bool :=
  match hex.toList with
  | '#' :: rest => (rest.length == 6 || rest.length == 3) && rest.all isHexDigit
  | _ => false

/-- An RGB channel triple, the record `{r, g, b}` of `hexToRgb`. -/
structure RGB where
  r : Nat
  g : Nat
  b : Nat
deriving Repr, DecidableEq

/-- What remains of the string once the optional leading `#` of
`hexToRgb`'s regex is consumed (`#` is not in the digit class, so a leading
`#` can only be matched by `#?`). -/
def hexBody (hex : String) : List Char :=
  match hex.toList with
  | '#' :: rest => rest
  | l => l

/-- The match of `hexToRgb`'s regex `/^#?([a-f\d]{2})([a-f\d]{2})([a-f\d]{2})$/i`:
an optional `#` followed by exactly six hexadecimal digits. Returns the six
digit characters when the whole string matches. -/
def hexToRgbMatch (hex : String) : Option (List Char) :=
  if (hexBody hex).length == 6 && (hexBody hex).all isHexDigit then some (hexBody hex)
  else none

/-- `hexToRgb` (source lines 16–23): parse the three two-digit groups with
`parseInt(-, 16)`, or fall back to `{r:0, g:0, b:0}` when the regex fails. -/
def hexToRgb (hex : String) : RGB :=
  match hexToRgbMatch hex with
  | some [c1, c2, c3, c4, c5, c6] =>
      { r := 16 * hexVal c1 + hexVal c2
        g := 16 * hexVal c3 + hexVal c4
        b := 16 * hexVal c5 + hexVal c6 }
  | _ => { r := 0, g := 0, b := 0 }

/-- The brightness score of `getContrastColor` (source line 28):
`(rgb.r * 299 + rgb.g * 587 + rgb.b * 114) / 1000`, as an exact rational. -/
def brightness (hex : String) : ℚ :=
  let rgb := hexToRgb hex
  (rgb.r * 299 + rgb.g * 587 + rgb.b * 114) / 1000

/-- `getContrastColor` (source lines 26–30): black text over bright
backgrounds, white text otherwise. -/
def getContrastColor (hex : String) : String :=
  if brightness hex > 128 then "#000000" else "#ffffff"

/-- The sRGB linearisation of one normalised channel (source line 10):
`val <= 0.03928 ? val / 12.92 : Math.pow((val + 0.055) / 1.055, 2.4)`,
idealised over ℝ. -/
noncomputable def linearize (v : ℝ) : ℝ :=
  if v ≤ 0.03928 then v / 12.92 else ((v + 0.055) / 1.055) ^ (2.4 : ℝ)

/-- `getLuminance` (source lines 6–13): normalise each channel to `[0,1]`,
linearise, and combine with the ITU-R BT.709 weights. -/
noncomputable def getLuminance (hex : String) : ℝ :=
  let rgb := hexToRgb hex
  0.2126 * linearize (rgb.r / 255) + 0.7152 * linearize (rgb.g / 255)
    + 0.0722 * linearize (rgb.b / 255)

/-- The `options` object of the two rendering functions, with the defaults the
destructuring assigns (source lines 59–64 and 104–109). Unrecognised keys of
the JavaScript object are never read, so they do not appear in the model. -/
structure RenderOptions where
  mode : String := "inline"
  size : String := "md"
  showBorder : Bool := true
  className : String := ""
deriving Repr, DecidableEq

/-- The DOM element as the code builds it: the tag passed to
`document.createElement`, the `className` written, the three inline style
properties the code may set (`none` = never assigned), and `textContent`. -/
structure Element where
  tagName : String
  className : String := ""
  styleBackgroundColor : Option String := none
  styleColor : Option String := none
  styleBorder : Option String := none
  textContent : String := ""
deriving Repr, DecidableEq

/-- Normalisation of the hex (source line 56): `hexValue.startsWith('#') ?
hexValue : `#${hexValue}``, reading the first character. -/
def normalizeHex (hexValue : String) : String :=
  match hexValue.toList with
  | '#' :: _ => hexValue
  | _ => "#" ++ hexValue

/-- The `sizeClasses` lookup table (source lines 70–74): a key outside the
three entries yields JavaScript `undefined`, here `none`. -/
def sizeClasses (size : String) : Option String :=
  if size == "sm" then some "text-xs px-1.5 py-0.5"
  else if size == "md" then some "text-xs px-2 py-1"
  else if size == "lg" then some "text-sm px-2.5 py-1.5"
  else none

/-- JavaScript template-literal interpolation of a possibly-`undefined` value:
`undefined` is stringified to the text "undefined". -/
def jsInterp : Option String → String
  | some s => s
  | none => "undefined"

/-- The composed class string of both renderers (source lines 78 and 122):
`colored-hex font-mono rounded ${sizeClasses[size]} ${className}`. -/
def composedClass (size className : String) : String :=
  "colored-hex font-mono rounded " ++ jsInterp (sizeClasses size) ++ " " ++ className

/-- The border colour ternary shared by both renderers (source lines 84 and
118): low-opacity black under black text, low-opacity white under white
text. -/
def borderColorFor (textColor : String) : String :=
  if textColor == "#000000" then "rgba(0,0,0,0.2)" else "rgba(255,255,255,0.3)"

/-- The border value `1px solid ${textColor === '#000000' ? … : …}` shared by
both renderers (source lines 84 and 118). -/
def borderValueFor (textColor : String) : String :=
  "1px solid " ++ borderColorFor textColor

/-- `createColoredHex` (source lines 47–88). Invalid input yields the plain
fallback `span` holding the input verbatim; otherwise the styled element is
built, with the border set only when `showBorder` is true. -/
def createColoredHex (hexValue : String) (options : RenderOptions) : Element :=
  if !isValidHex hexValue then
    { tagName := "span", textContent := hexValue }
  else
    let hex := normalizeHex hexValue
    let textColor := getContrastColor hex
    let element : Element :=
      { tagName := if options.mode == "block" then "div" else "span"
        className := composedClass options.size options.className
        styleBackgroundColor := some hex
        styleColor := some textColor
        textContent := hex }
    if options.showBorder then
      { element with styleBorder := some (borderValueFor textColor) }
    else
      element

/-- The `tag` ternary of `createColoredHexHTML` (source line 116). -/
def tagOf (mode : String) : String :=
  if mode == "block" then "div" else "span"

/-- The `borderStyle` ternary of `createColoredHexHTML` (source lines
117–119): a whole `border: …;` declaration when `showBorder` is true, the
empty string otherwise. -/
def borderStyleOf (showBorder : Bool) (textColor : String) : String :=
  if showBorder then "border: " ++ borderValueFor textColor ++ ";"
  else ""

/-- `createColoredHexHTML` (source lines 96–123). Invalid input is returned
verbatim; otherwise the template literal of line 122 is assembled. -/
def createColoredHexHTML (hexValue : String) (options : RenderOptions) : String :=
  if !isValidHex hexValue then
    hexValue
  else
    let hex := normalizeHex hexValue
    let textColor := getContrastColor hex
    let tag := tagOf options.mode
    let borderStyle := borderStyleOf options.showBorder textColor
    "<" ++ tag ++ " class=\"" ++ composedClass options.size options.className
      ++ "\" style=\"background-color: " ++ hex ++ "; color: " ++ textColor
      ++ "; " ++ borderStyle ++ "\">" ++ hex ++ "</" ++ tag ++ ">"

/-- Serialisation of the modelled element's styling into the markup shape of
`createColoredHexHTML`'s template literal, written from the spec's words that
the HTML renderer "must byte-for-byte (functionally) match the styling
`createColoredHex` would apply": the tag, the class attribute, the style
declarations in source order, the text content. Used only to compare the two
renderers. -/
def elementToHTML (e : Element) : String :=
  "<" ++ e.tagName ++ " class=\"" ++ e.className ++ "\" style=\"background-color: "
    ++ (e.styleBackgroundColor.getD "") ++ "; color: " ++ (e.styleColor.getD "")
    ++ "; " ++ (match e.styleBorder with
        | some v => "border: " ++ v ++ ";"
        | none => "")
    ++ "\">" ++ e.textContent ++ "</" ++ e.tagName ++ ">"

/-- Character order is code-point order (definitionally). -/
theorem char_le_iff {a b : Char} : a ≤ b ↔ a.toNat ≤ b.toNat := Iff.rfl

/-- The hex-digit class in terms of code points. -/
theorem isHexDigit_iff (c : Char) :
    isHexDigit c = true ↔
      (48 ≤ c.toNat ∧ c.toNat ≤ 57) ∨ (97 ≤ c.toNat ∧ c.toNat ≤ 102)
        ∨ (65 ≤ c.toNat ∧ c.toNat ≤ 70) := by
  unfold isHexDigit
  simp only [Bool.or_eq_true, Bool.and_eq_true, decide_eq_true_eq, char_le_iff,
    show ('0' : Char).toNat = 48 from rfl, show ('9' : Char).toNat = 57 from rfl,
    show ('a' : Char).toNat = 97 from rfl, show ('f' : Char).toNat = 102 from rfl,
    show ('A' : Char).toNat = 65 from rfl, show ('F' : Char).toNat = 70 from rfl]
  tauto

/-- The value of a hexadecimal digit is at most 15. -/
theorem hexVal_le_15 {c : Char} (h : isHexDigit c = true) : hexVal c ≤ 15 := by
  rw [isHexDigit_iff] at h
  unfold hexVal
  simp only [Bool.and_eq_true, decide_eq_true_eq, char_le_iff,
    show ('0' : Char).toNat = 48 from rfl, show ('9' : Char).toNat = 57 from rfl,
    show ('a' : Char).toNat = 97 from rfl, show ('f' : Char).toNat = 102 from rfl,
    show ('A' : Char).toNat = 65 from rfl]
  split_ifs <;> omega

/-- What a successful match of `hexToRgb`'s regex guarantees about the
captured characters. -/
theorem hexToRgbMatch_spec {hex : String} {l : List Char}
    (h : hexToRgbMatch hex = some l) : l.length = 6 ∧ ∀ c ∈ l, isHexDigit c = true := by
  unfold hexToRgbMatch at h
  split at h
  · next hcond =>
    simp only [Bool.and_eq_true, beq_iff_eq, List.all_eq_true] at hcond
    cases h
    exact ⟨hcond.1, hcond.2⟩
  · exact absurd h (by simp)

/-- A failed match of `hexToRgb`'s regex yields the zero fallback. -/
theorem hexToRgb_of_match_none {hex : String} (h : hexToRgbMatch hex = none) :
    hexToRgb hex = { r := 0, g := 0, b := 0 } := by
  unfold hexToRgb
  rw [h]

/-- A successful match yields the six digits parsed pairwise in base 16. -/
theorem hexToRgb_of_match_some {hex : String} {c1 c2 c3 c4 c5 c6 : Char}
    (h : hexToRgbMatch hex = some [c1, c2, c3, c4, c5, c6]) :
    hexToRgb hex =
      { r := 16 * hexVal c1 + hexVal c2
        g := 16 * hexVal c3 + hexVal c4
        b := 16 * hexVal c5 + hexVal c6 } := by
  unfold hexToRgb
  rw [h]

/-- A list of length six is six elements. -/
theorem length_eq_six {α : Type} {l : List α} (h : l.length = 6) :
    ∃ a b c d e f, l = [a, b, c, d, e, f] := by
  rcases l with _ | ⟨a, _ | ⟨b, _ | ⟨c, _ | ⟨d, _ | ⟨e, _ | ⟨f, _ | ⟨g, t⟩⟩⟩⟩⟩⟩⟩ <;> simp at h
  exact ⟨a, b, c, d, e, f, rfl⟩

/-- Every channel `hexToRgb` produces is at most 255. -/
theorem hexToRgb_le_255 (hex : String) :
    (hexToRgb hex).r ≤ 255 ∧ (hexToRgb hex).g ≤ 255 ∧ (hexToRgb hex).b ≤ 255 := by
  cases hm : hexToRgbMatch hex with
  | none => rw [hexToRgb_of_match_none hm]; exact ⟨by norm_num, by norm_num, by norm_num⟩
  | some l =>
    obtain ⟨hlen, hall⟩ := hexToRgbMatch_spec hm
    obtain ⟨c1, c2, c3, c4, c5, c6, rfl⟩ := length_eq_six hlen
    rw [hexToRgb_of_match_some hm]
    have b1 := hexVal_le_15 (hall c1 (by simp))
    have b2 := hexVal_le_15 (hall c2 (by simp))
    have b3 := hexVal_le_15 (hall c3 (by simp))
    have b4 := hexVal_le_15 (hall c4 (by simp))
    have b5 := hexVal_le_15 (hall c5 (by simp))
    have b6 := hexVal_le_15 (hall c6 (by simp))
    refine ⟨show 16 * hexVal c1 + hexVal c2 ≤ 255 by omega,
      show 16 * hexVal c3 + hexVal c4 ≤ 255 by omega,
      show 16 * hexVal c5 + hexVal c6 ≤ 255 by omega⟩

/-- The exact rational comparison `brightness > 128` is the integer comparison
of the weighted sum against `128000`. -/
theorem brightness_gt_iff (hex : String) :
    brightness hex > 128 ↔
      128000 < (hexToRgb hex).r * 299 + (hexToRgb hex).g * 587 + (hexToRgb hex).b * 114 := by
  unfold brightness
  rw [gt_iff_lt, lt_div_iff₀ (by norm_num : (0 : ℚ) < 1000)]
  norm_num
  constructor
  · intro h
    exact_mod_cast h
  · intro h
    exact_mod_cast h

/-- `getContrastColor` computed over the natural numbers. -/
theorem getContrastColor_eq (hex : String) :
    getContrastColor hex =
      if 128000 < (hexToRgb hex).r * 299 + (hexToRgb hex).g * 587 + (hexToRgb hex).b * 114
      then "#000000" else "#ffffff" := by
  unfold getContrastColor
  by_cases h : 128000 < (hexToRgb hex).r * 299 + (hexToRgb hex).g * 587 + (hexToRgb hex).b * 114
  · simp [h, (brightness_gt_iff hex).mpr h]
  · have hb : ¬ brightness hex > 128 := fun hb => h ((brightness_gt_iff hex).mp hb)
    simp [h, not_lt.mp hb]

/-- Characterisation of `isValidHex`: the string is a `#` followed by exactly
six or exactly three hexadecimal digits. -/
theorem isValidHex_iff (s : String) :
    isValidHex s = true ↔
      ∃ rest, s.toList = '#' :: rest ∧ (rest.length = 6 ∨ rest.length = 3)
        ∧ ∀ c ∈ rest, isHexDigit c = true := by
  unfold isValidHex
  constructor
  · intro h
    split at h
    · next rest heq =>
      simp only [Bool.and_eq_true, Bool.or_eq_true, beq_iff_eq, List.all_eq_true] at h
      exact ⟨rest, heq, h.1, h.2⟩
    · exact absurd h (by simp)
  · rintro ⟨rest, heq, hlen, hdig⟩
    rw [heq]
    simp only [Bool.and_eq_true, Bool.or_eq_true, beq_iff_eq, List.all_eq_true]
    exact ⟨hlen, hdig⟩

/-- A string accepted by `isValidHex` already starts with `#`, so
normalisation leaves it unchanged. -/
theorem normalizeHex_of_valid {s : String} (h : isValidHex s = true) :
    normalizeHex s = s := by
  obtain ⟨rest, heq, -, -⟩ := (isValidHex_iff s).mp h
  unfold normalizeHex
  rw [heq]
  rfl

/-- `getContrastColor` returns one of exactly two tokens. -/
theorem getContrastColor_mem (hex : String) :
    getContrastColor hex = "#000000" ∨ getContrastColor hex = "#ffffff" := by
  unfold getContrastColor
  split
  · exact Or.inl rfl
  · exact Or.inr rfl

/-- `getContrastColor` answers black exactly over brightness above 128. -/
theorem getContrastColor_black_iff (hex : String) :
    getContrastColor hex = "#000000" ↔ brightness hex > 128 := by
  unfold getContrastColor
  split
  · next h => simp [h]
  · next h => simp [h]

/-- On a failed 6-digit parse the zero fallback makes the brightness 0, so the
contrast colour is white. -/
theorem getContrastColor_of_match_none {hex : String}
    (h : hexToRgbMatch hex = none) : getContrastColor hex = "#ffffff" := by
  rw [getContrastColor_eq, hexToRgb_of_match_none h]
  norm_num

/-- A valid hex string of length 4 (`#` plus 3-digit shorthand) never matches
`hexToRgb`'s 6-digit pattern. -/
theorem match_none_of_valid_len4 {s : String} (hv : isValidHex s = true)
    (hl : s.length = 4) : hexToRgbMatch s = none := by
  obtain ⟨rest, heq, hlen, -⟩ := (isValidHex_iff s).mp hv
  have hdata : s.toList.length = 4 := hl
  rw [heq] at hdata
  simp only [List.length_cons] at hdata
  unfold hexToRgbMatch hexBody
  rw [heq]
  have h3 : rest.length = 3 := by omega
  simp [h3]

/-- The two renderers compose identical styling: for a valid input the HTML
string is exactly the serialisation of the DOM element `createColoredHex`
builds. -/
theorem html_eq_elementToHTML (hexValue : String) (options : RenderOptions)
    (h : isValidHex hexValue = true) :
    createColoredHexHTML hexValue options =
      elementToHTML (createColoredHex hexValue options) := by
  unfold createColoredHexHTML createColoredHex elementToHTML tagOf borderStyleOf
  rw [h]
  cases hb : options.showBorder <;> simp

/-- On an invalid input, `createColoredHex` is the bare fallback span and
`createColoredHexHTML` is the input itself. -/
theorem fallback_of_invalid (hexValue : String) (options : RenderOptions)
    (h : isValidHex hexValue = false) :
    createColoredHex hexValue options = { tagName := "span", textContent := hexValue }
      ∧ createColoredHexHTML hexValue options = hexValue := by
  unfold createColoredHex createColoredHexHTML
  rw [h]
  exact ⟨rfl, rfl⟩

/-- The sRGB linearisation is nonnegative on nonnegative input. -/
theorem linearize_nonneg {v : ℝ} (hv : 0 ≤ v) : 0 ≤ linearize v := by
  unfold linearize
  split_ifs with h
  · positivity
  · positivity

/-- The sRGB linearisation stays at most one on `[0,1]`. -/
theorem linearize_le_one {v : ℝ} (hv0 : 0 ≤ v) (hv1 : v ≤ 1) : linearize v ≤ 1 := by
  unfold linearize
  split_ifs with h
  · rw [div_le_one (by norm_num)]
    linarith
  · apply Real.rpow_le_one (by positivity) _ (by norm_num)
    rw [div_le_one (by norm_num)]
    linarith

/-- The luminance of every string lies in `[0,1]`. -/
theorem getLuminance_mem_Icc (hex : String) :
    0 ≤ getLuminance hex ∧ getLuminance hex ≤ 1 := by
  obtain ⟨hr, hg, hb⟩ := hexToRgb_le_255 hex
  unfold getLuminance
  have nr : (0 : ℝ) ≤ (hexToRgb hex).r / 255 := by positivity
  have ng : (0 : ℝ) ≤ (hexToRgb hex).g / 255 := by positivity
  have nb : (0 : ℝ) ≤ (hexToRgb hex).b / 255 := by positivity
  have ur : ((hexToRgb hex).r : ℝ) / 255 ≤ 1 := by
    rw [div_le_one (by norm_num)]
    exact_mod_cast hr
  have ug : ((hexToRgb hex).g : ℝ) / 255 ≤ 1 := by
    rw [div_le_one (by norm_num)]
    exact_mod_cast hg
  have ub : ((hexToRgb hex).b : ℝ) / 255 ≤ 1 := by
    rw [div_le_one (by norm_num)]
    exact_mod_cast hb
  have l1 := linearize_nonneg nr
  have l2 := linearize_nonneg ng
  have l3 := linearize_nonneg nb
  have u1 := linearize_le_one nr ur
  have u2 := linearize_le_one ng ug
  have u3 := linearize_le_one nb ub
  constructor
  · positivity
  · nlinarith

/-- The luminance of pure white is exactly 1. -/
theorem getLuminance_white : getLuminance "#ffffff" = 1 := by
  have h : hexToRgb "#ffffff" = { r := 255, g := 255, b := 255 } := by decide
  unfold getLuminance
  rw [h]
  have h1 : ((255 : ℕ) : ℝ) / 255 = 1 := by norm_num
  show (0.2126 : ℝ) * linearize (((255 : ℕ) : ℝ) / 255)
      + 0.7152 * linearize (((255 : ℕ) : ℝ) / 255)
      + 0.0722 * linearize (((255 : ℕ) : ℝ) / 255) = 1
  rw [h1]
  have h2 : linearize 1 = 1 := by
    unfold linearize
    rw [if_neg (by norm_num), show ((1 : ℝ) + 0.055) / 1.055 = 1 by norm_num,
      Real.one_rpow]
  rw [h2]
  norm_num

/-- The luminance of pure black is exactly 0. -/
theorem getLuminance_black : getLuminance "#000000" = 0 := by
  have h : hexToRgb "#000000" = { r := 0, g := 0, b := 0 } := by decide
  unfold getLuminance
  rw [h]
  show (0.2126 : ℝ) * linearize (((0 : ℕ) : ℝ) / 255)
      + 0.7152 * linearize (((0 : ℕ) : ℝ) / 255)
      + 0.0722 * linearize (((0 : ℕ) : ℝ) / 255) = 0
  have h1 : ((0 : ℕ) : ℝ) / 255 = 0 := by norm_num
  rw [h1]
  have h2 : linearize 0 = 0 := by
    unfold linearize
    rw [if_pos (by norm_num)]
    norm_num
  rw [h2]
  norm_num

/-- The element `createColoredHex` builds on a valid input, field by field. -/
theorem createColoredHex_of_valid (hexValue : String) (options : RenderOptions)
    (h : isValidHex hexValue = true) :
    createColoredHex hexValue options =
      { tagName := if options.mode == "block" then "div" else "span"
        className := composedClass options.size options.className
        styleBackgroundColor := some (normalizeHex hexValue)
        styleColor := some (getContrastColor (normalizeHex hexValue))
        styleBorder :=
          if options.showBorder then
            some (borderValueFor (getContrastColor (normalizeHex hexValue)))
          else none
        textContent := normalizeHex hexValue } := by
  unfold createColoredHex
  rw [h]
  cases hb : options.showBorder <;> simp [hb]

/-- The contrast colour of `#FF5733`: brightness
`(255·299 + 87·587 + 51·114)/1000 = 133.128 > 128`, so black text. -/
theorem contrast_FF5733 : getContrastColor "#FF5733" = "#000000" := by
  rw [getContrastColor_eq]
  decide

/-- The contrast colour of the 3-digit shorthand `#fff` is white: the 6-digit
parse fails and falls back to black, whose brightness is 0. -/
theorem contrast_fff : getContrastColor "#fff" = "#ffffff" :=
  getContrastColor_of_match_none (by decide)

/-- C1, counterexample: the claim holds the leading `#` optional, so that
`isValidHex "FF5733"` would be true; the regex of the source makes the `#`
mandatory and rejects `"FF5733"`. -/
theorem C1_counterexample : isValidHex "FF5733" = false := by decide

/-- C1, amended: `isValidHex` accepts exactly the strings consisting of a
mandatory leading `#` followed by exactly 6 or exactly 3 hexadecimal digits;
every string without the leading `#`, of a different length, or containing a
non-hex character is rejected. In particular `"#FF5733"` and `"#fff"` are
accepted while `"FF5733"` (no `#`) is rejected. -/
theorem C1_claim :
    (∀ s : String, isValidHex s = true ↔
      ∃ rest, s.toList = '#' :: rest ∧ (rest.length = 6 ∨ rest.length = 3)
        ∧ ∀ c ∈ rest, isHexDigit c = true)
    ∧ isValidHex "#FF5733" = true
    ∧ isValidHex "#fff" = true
    ∧ isValidHex "FF5733" = false
    ∧ isValidHex "#FF573" = false
    ∧ isValidHex "#FF57334" = false
    ∧ isValidHex "#GG5733" = false :=
  ⟨isValidHex_iff, by decide, by decide, by decide, by decide, by decide, by decide⟩

/-- C2, counterexample: the claim says `createColoredHex "FF5733"` (no leading
`#`) yields a styled node with background-colour `#FF5733`; the code rejects
the `#`-less string and returns the unstyled plain-text fallback span. -/
theorem C2_counterexample :
    createColoredHex "FF5733" { } = { tagName := "span", textContent := "FF5733" }
    ∧ (createColoredHex "FF5733" { }).styleBackgroundColor = none := by
  have h := fallback_of_invalid "FF5733" { } (by decide)
  exact ⟨h.1, by rw [h.1]⟩

/-- C2, amended: `createColoredHex "FF5733"` (no leading `#`) returns the
unstyled plain-text fallback span carrying `"FF5733"`; with the leading `#`,
`createColoredHex "#FF5733"` returns the styled node: background-colour
`"#FF5733"`, text content `"#FF5733"`, and text colour `"#000000"` as the
brightness formula computes ((255·299 + 87·587 + 51·114)/1000 = 133.128 >
128). -/
theorem C2_claim :
    createColoredHex "FF5733" { } = { tagName := "span", textContent := "FF5733" }
    ∧ (createColoredHex "#FF5733" { }).styleBackgroundColor = some "#FF5733"
    ∧ (createColoredHex "#FF5733" { }).textContent = "#FF5733"
    ∧ (createColoredHex "#FF5733" { }).styleColor = some "#000000"
    ∧ brightness "#FF5733" = 133128 / 1000 := by
  have hfb := fallback_of_invalid "FF5733" { } (by decide)
  have hv : isValidHex "#FF5733" = true := by decide
  have hn : normalizeHex "#FF5733" = "#FF5733" := by decide
  have he := createColoredHex_of_valid "#FF5733" { } hv
  rw [hn] at he
  refine ⟨hfb.1, ?_, ?_, ?_, ?_⟩
  · rw [he]
  · rw [he]
  · rw [he, contrast_FF5733]
  · unfold brightness
    norm_num [show hexToRgb "#FF5733" = { r := 255, g := 87, b := 51 } from by decide]

/-- C3, counterexample: for the unrecognised size `"xl"` the claim says the
size-class slot of the class string is missing/empty; in fact JavaScript
template interpolation renders the `undefined` lookup as the literal text
`undefined` inside the class string. -/
theorem C3_counterexample :
    (createColoredHex "#FF5733" { size := "xl" }).className
      = "colored-hex font-mono rounded undefined "
    ∧ (createColoredHex "#FF5733" { size := "xl" }).className
        ≠ "colored-hex font-mono rounded  "
    ∧ (createColoredHex "#FF5733" { size := "xl" }).className
        ≠ "colored-hex font-mono rounded " := by
  have he := createColoredHex_of_valid "#FF5733" { size := "xl" } (by decide)
  refine ⟨?_, ?_, ?_⟩ <;> rw [he] <;> decide

/-- C3, amended: for every valid hex input and every size outside
`{sm, md, lg}` the lookup yields `undefined` and both renderers interpolate it
into the class string as the literal text `undefined`: the composed class
string is `"colored-hex font-mono rounded undefined "` followed by the
caller's `className`, with no further validation or defaulting applied. -/
theorem C3_claim (hexValue : String) (options : RenderOptions)
    (hv : isValidHex hexValue = true) (hs : sizeClasses options.size = none) :
    (createColoredHex hexValue options).className
      = "colored-hex font-mono rounded undefined " ++ options.className
    ∧ composedClass options.size options.className
      = "colored-hex font-mono rounded undefined " ++ options.className := by
  have hc : composedClass options.size options.className
      = "colored-hex font-mono rounded undefined " ++ options.className := by
    unfold composedClass jsInterp
    rw [hs]
    rfl
  refine ⟨?_, hc⟩
  rw [createColoredHex_of_valid hexValue options hv]
  exact hc

/-- C3, witness: the amended claim at `"#FF5733"` with size `"xl"`. -/
theorem C3_witness :
    (createColoredHex "#FF5733" { size := "xl" }).className
      = "colored-hex font-mono rounded undefined " ++ "" :=
  (C3_claim "#FF5733" { size := "xl" } (by decide) (by decide)).1

/-- C4: `createColoredHexHTML` produces exactly the styling `createColoredHex`
applies — for every input and options, the HTML string is the serialisation of
the DOM element's tag, class string, background-colour, text colour, border
and text content (and on invalid input both degrade to the bare input
text). -/
theorem C4_claim (hexValue : String) (options : RenderOptions) :
    createColoredHexHTML hexValue options =
      if isValidHex hexValue then elementToHTML (createColoredHex hexValue options)
      else hexValue := by
  cases h : isValidHex hexValue
  · rw [if_neg (by simp), (fallback_of_invalid hexValue options h).2]
  · rw [if_pos rfl, html_eq_elementToHTML hexValue options h]

/-- C5: `hexToRgb` parses any 6-hex-digit string (optional leading `#`,
case-insensitive) into its three channel integers, each at most 255 —
`hexToRgb "#FF5733" = {r:255, g:87, b:51}` — and on every input the 6-digit
regex fails to match (wrong length, non-hex characters, 3-digit shorthand) it
returns exactly `{r:0, g:0, b:0}`. -/
theorem C5_claim :
    hexToRgb "#FF5733" = { r := 255, g := 87, b := 51 }
    ∧ (∀ hex : String,
        (hexToRgb hex).r ≤ 255 ∧ (hexToRgb hex).g ≤ 255 ∧ (hexToRgb hex).b ≤ 255)
    ∧ (∀ (hex : String) (c1 c2 c3 c4 c5 c6 : Char),
        hexToRgbMatch hex = some [c1, c2, c3, c4, c5, c6] →
        hexToRgb hex =
          { r := 16 * hexVal c1 + hexVal c2
            g := 16 * hexVal c3 + hexVal c4
            b := 16 * hexVal c5 + hexVal c6 })
    ∧ (∀ hex : String, hexToRgbMatch hex = none →
        hexToRgb hex = { r := 0, g := 0, b := 0 })
    ∧ hexToRgb "ff5733" = { r := 255, g := 87, b := 51 }
    ∧ hexToRgb "#fff" = { r := 0, g := 0, b := 0 }
    ∧ hexToRgb "#FF573" = { r := 0, g := 0, b := 0 }
    ∧ hexToRgb "zz5733" = { r := 0, g := 0, b := 0 } :=
  ⟨by decide, hexToRgb_le_255,
    fun _ _ _ _ _ _ _ h => hexToRgb_of_match_some h,
    fun _ h => hexToRgb_of_match_none h,
    by decide, by decide, by decide, by decide⟩

/-- The border value in the claim's casing, for either text colour. -/
theorem borderValueFor_eq (tc : String) :
    borderValueFor tc =
      if tc = "#000000" then "1px solid rgba(0,0,0,0.2)"
      else "1px solid rgba(255,255,255,0.3)" := by
  unfold borderValueFor borderColorFor
  by_cases h : tc = "#000000"
  · subst h
    rfl
  · rw [if_neg h, show (tc == "#000000") = false from beq_eq_false_iff_ne.mpr h]
    rfl

/-- C6: `getContrastColor` computes brightness `(R·299 + G·587 + B·114)/1000`
over the parsed channels, returns `"#000000"` exactly when that brightness
exceeds 128 and `"#ffffff"` otherwise, always returns one of those two tokens,
is deterministic, and maps white to black text and black to white text. -/
theorem C6_claim :
    (∀ hex : String, brightness hex =
      ((hexToRgb hex).r * 299 + (hexToRgb hex).g * 587 + (hexToRgb hex).b * 114) / 1000)
    ∧ (∀ hex : String,
        getContrastColor hex = "#000000" ∨ getContrastColor hex = "#ffffff")
    ∧ (∀ hex : String, getContrastColor hex = "#000000" ↔ brightness hex > 128)
    ∧ getContrastColor "#ffffff" = "#000000"
    ∧ getContrastColor "#000000" = "#ffffff"
    ∧ (∀ h1 h2 : String, h1 = h2 → getContrastColor h1 = getContrastColor h2) :=
  ⟨fun _ => rfl, getContrastColor_mem, getContrastColor_black_iff,
    by rw [getContrastColor_eq]; decide, by rw [getContrastColor_eq]; decide,
    fun _ _ h => by rw [h]⟩

/-- C7: `getLuminance` normalises each channel to `[0,1]`, applies the
piecewise sRGB linearisation (divide by 12.92 up to 0.03928, else the 2.4
power of `(v+0.055)/1.055`), combines with weights 0.2126/0.7152/0.0722, its
result always lies in `[0,1]`, and white maps to exactly 1 and black to
exactly 0 (idealised over ℝ). -/
theorem C7_claim :
    (∀ hex : String, 0 ≤ getLuminance hex ∧ getLuminance hex ≤ 1)
    ∧ getLuminance "#ffffff" = 1
    ∧ getLuminance "#000000" = 0
    ∧ (∀ v : ℝ, v ≤ 0.03928 → linearize v = v / 12.92)
    ∧ (∀ v : ℝ, 0.03928 < v → linearize v = ((v + 0.055) / 1.055) ^ (2.4 : ℝ))
    ∧ (∀ hex : String, getLuminance hex =
        0.2126 * linearize ((hexToRgb hex).r / 255)
        + 0.7152 * linearize ((hexToRgb hex).g / 255)
        + 0.0722 * linearize ((hexToRgb hex).b / 255)) :=
  ⟨getLuminance_mem_Icc, getLuminance_white, getLuminance_black,
    fun _ h => by unfold linearize; rw [if_pos h],
    fun _ h => by unfold linearize; rw [if_neg (not_le.mpr h)],
    fun _ => rfl⟩

/-- C8: for valid input, with `showBorder` both renderers attach a 1px solid
border whose colour is low-opacity black under black text and low-opacity
white under white text; and `createColoredHexHTML` with mode `block` and
`showBorder: false` emits a `div` whose style attribute holds only the
background-colour and colour declarations — no border declaration. -/
theorem C8_claim (hexValue : String) (options : RenderOptions)
    (hv : isValidHex hexValue = true) :
    (options.showBorder = true →
      (createColoredHex hexValue options).styleBorder
        = some (if getContrastColor (normalizeHex hexValue) = "#000000"
            then "1px solid rgba(0,0,0,0.2)" else "1px solid rgba(255,255,255,0.3)"))
    ∧ (∀ textColor : String, borderStyleOf true textColor
        = if textColor = "#000000" then "border: 1px solid rgba(0,0,0,0.2);"
          else "border: 1px solid rgba(255,255,255,0.3);")
    ∧ createColoredHexHTML hexValue { mode := "block", showBorder := false }
        = "<div class=\"" ++ composedClass "md" "" ++ "\" style=\"background-color: "
          ++ normalizeHex hexValue ++ "; color: "
          ++ getContrastColor (normalizeHex hexValue) ++ "; \">"
          ++ normalizeHex hexValue ++ "</div>" := by
  refine ⟨?_, ?_, ?_⟩
  · intro hb
    rw [createColoredHex_of_valid hexValue options hv]
    show (if options.showBorder then some (borderValueFor _) else none) = _
    rw [hb, if_pos rfl, borderValueFor_eq]
  · intro textColor
    unfold borderStyleOf
    rw [if_pos rfl, borderValueFor_eq]
    by_cases h : textColor = "#000000"
    · rw [if_pos h, if_pos h]
      rfl
    · rw [if_neg h, if_neg h]
      rfl
  · unfold createColoredHexHTML
    rw [hv]
    simp only [Bool.not_true, String.append_assoc, String.append_empty,
      String.empty_append]
    rfl

/-- C8, witness: the amended facts at `"#FF5733"` with default options. -/
theorem C8_witness :
    createColoredHexHTML "#FF5733" { mode := "block", showBorder := false }
      = "<div class=\"" ++ composedClass "md" "" ++ "\" style=\"background-color: "
        ++ normalizeHex "#FF5733" ++ "; color: "
        ++ getContrastColor (normalizeHex "#FF5733") ++ "; \">"
        ++ normalizeHex "#FF5733" ++ "</div>" :=
  (C8_claim "#FF5733" { } (by decide)).2.2

/-- C9: the embedding of every function of the utility is a total Lean
function (no input can raise), and on any input `isValidHex` rejects,
`createColoredHex` returns the plain unstyled span whose text content is the
original input and `createColoredHexHTML` returns the raw input string
itself. -/
theorem C9_claim (s : String) (options : RenderOptions)
    (h : isValidHex s = false) :
    createColoredHex s options =
      { tagName := "span", className := "", styleBackgroundColor := none,
        styleColor := none, styleBorder := none, textContent := s }
    ∧ createColoredHexHTML s options = s :=
  fallback_of_invalid s options h

/-- C9, witness: the fallback at the invalid input `"not-a-color"`. -/
theorem C9_witness :
    createColoredHex "not-a-color" { } =
      { tagName := "span", className := "", styleBackgroundColor := none,
        styleColor := none, styleBorder := none, textContent := "not-a-color" }
    ∧ createColoredHexHTML "not-a-color" { } = "not-a-color" :=
  C9_claim "not-a-color" { } (by decide)

/-- C10: whenever the 6-digit parse fails — in particular on every valid
3-digit shorthand such as `"#fff"` — `getContrastColor` returns `"#ffffff"`
(the fallback RGB is `{0,0,0}`, brightness 0), so both renderers display every
valid 3-digit hex as a styled swatch with white text, regardless of the actual
brightness of that colour. -/
theorem C10_claim :
    (∀ s : String, hexToRgbMatch s = none → getContrastColor s = "#ffffff")
    ∧ isValidHex "#fff" = true
    ∧ getContrastColor "#fff" = "#ffffff"
    ∧ (∀ (s : String) (options : RenderOptions),
        isValidHex s = true → s.length = 4 →
        (createColoredHex s options).styleColor = some "#ffffff"
        ∧ (createColoredHex s options).styleBackgroundColor = some s
        ∧ (createColoredHex s options).textContent = s
        ∧ createColoredHexHTML s options
            = elementToHTML (createColoredHex s options)) := by
  refine ⟨fun s h => getContrastColor_of_match_none h, by decide, contrast_fff, ?_⟩
  intro s options hv hl
  have hn := normalizeHex_of_valid hv
  have hm := match_none_of_valid_len4 hv hl
  have hw : getContrastColor (normalizeHex s) = "#ffffff" := by
    rw [hn]
    exact getContrastColor_of_match_none hm
  have he := createColoredHex_of_valid s options hv
  refine ⟨?_, ?_, ?_, html_eq_elementToHTML s options hv⟩
  · rw [he]
    show some (getContrastColor (normalizeHex s)) = some "#ffffff"
    rw [hw]
  · rw [he]
    show some (normalizeHex s) = some s
    rw [hn]
  · rw [he]
    show normalizeHex s = s
    exact hn

end ColorUtils
